import Mathlib

/-!
Verification development for the auto_gpt_planner_plugin repository.

The repository is a CRUD layer over two SQLAlchemy-mapped record kinds
(`Task`, `Plan`) plus a prompt-construction routine and a plugin facade.
We embed the store as a pair of lists of records, each session-level
operation as a pure function from the store (and an optional injected
commit fault, modelling an underlying commit failure such as a disk
error) to a result, the new committed store, and a flag recording
whether the operation left uncommitted work pending in the session
(i.e. whether it failed without performing a rollback).

Python exceptions are modelled by the `PyRes` result type carrying the
exception message; `fault = some c` means the underlying commit raises
with cause `c`, `fault = none` means the underlying commit succeeds.
-/

namespace Plugin

/-- Result of a Python call: normal return or a raised exception
(identified by its stringified message). -/
inductive PyRes (α : Type) where
  | ok (a : α) : PyRes α
  | exn (e : String) : PyRes α
deriving DecidableEq, Repr

/-- tasks.py / database.py `Task` model: columns id, description,
priority, completed — and nothing else. -/
structure Task where
  id : Nat
  description : String
  priority : Int
  completed : Bool
deriving DecidableEq, Repr

/-- database.py `Plan` model: columns id, goal, completed. -/
structure Plan where
  id : Nat
  goal : String
  completed : Bool
deriving DecidableEq, Repr

/-- The committed contents of the relational store: the `tasks` table
and the `plans` table, in insertion order. -/
structure Store where
  tasks : List Task
  plans : List Plan
deriving DecidableEq, Repr

/-- Outcome of one session-level mutating operation: the call result,
the committed store afterwards, and whether the session was left with
an uncommitted (not rolled back) pending write. -/
structure OpOut where
  res : PyRes Unit
  db : Store
  sessionDirty : Bool
deriving DecidableEq, Repr

/-- `session.query(Task).filter_by(id=i).first()`. -/
def findTaskById (ts : List Task) (i : Nat) : Option Task :=
  ts.find? (fun t => t.id == i)

/-- Whether a task with the given primary key already exists. -/
def taskIdPresent (ts : List Task) (i : Nat) : Bool :=
  ts.any (fun t => t.id == i)

/-- Set `completed := true` on the first task matching the id
(the object returned by `.first()`). -/
def setCompletedFirst : List Task → Nat → List Task
  | [], _ => []
  | t :: ts, i =>
    if t.id == i then { t with completed := true } :: ts
    else t :: setCompletedFirst ts i

/-- `session.delete` of the first task matching the id. -/
def removeFirstTask : List Task → Nat → List Task
  | [], _ => []
  | t :: ts, i => if t.id == i then ts else t :: removeFirstTask ts i

/-- `session.merge(task)`: upsert-by-primary-key. -/
def upsertTask (ts : List Task) (t : Task) : List Task :=
  if taskIdPresent ts t.id then ts.map (fun u => if u.id == t.id then t else u)
  else ts ++ [t]

/-- `session.query(Plan).filter_by(id=i).first()`. -/
def findPlanById (ps : List Plan) (i : Nat) : Option Plan :=
  ps.find? (fun p => p.id == i)

/-- `session.query(Plan).filter_by(goal=g).first()`. -/
def findPlanByGoal (ps : List Plan) (g : String) : Option Plan :=
  ps.find? (fun p => p.goal == g)

/-- Whether a plan with the given primary key already exists. -/
def planIdPresent (ps : List Plan) (i : Nat) : Bool :=
  ps.any (fun p => p.id == i)

/-- `session.merge(plan)`: upsert-by-primary-key. -/
def upsertPlan (ps : List Plan) (p : Plan) : List Plan :=
  if planIdPresent ps p.id then ps.map (fun q => if q.id == p.id then p else q)
  else ps ++ [p]

/-- `session.delete` of the first plan matching the id. -/
def removeFirstPlan : List Plan → Nat → List Plan
  | [], _ => []
  | p :: ps, i => if p.id == i then ps else p :: removeFirstPlan ps i

/-- Set `completed := true` on the first plan whose goal text matches. -/
def setPlanCompletedFirstByGoal : List Plan → String → List Plan
  | [], _ => []
  | p :: ps, g =>
    if p.goal == g then { p with completed := true } :: ps
    else p :: setPlanCompletedFirstByGoal ps g

/-- The columns declared on the `Task` model (tasks.py lines 8-14,
database.py lines 8-13). There is no goal or plan association column. -/
def taskColumns : List String := ["id", "description", "priority", "completed"]

namespace TaskManager

/-- tasks.py `TaskManager.create_task`: `session.add(task); session.commit()`,
on failure `session.rollback()` then raise a wrapped exception. The commit
fails when the environment injects a fault or the primary key collides. -/
def create_task (store : Store) (t : Task) (fault : Option String) : OpOut :=
  match fault with
  | some c => ⟨.exn ("Failed to create task: " ++ c), store, false⟩
  | none =>
    if taskIdPresent store.tasks t.id then
      ⟨.exn ("Failed to create task: UNIQUE constraint failed: tasks.id"),
        store, false⟩
    else
      ⟨.ok (), { store with tasks := store.tasks ++ [t] }, false⟩

/-- tasks.py `TaskManager.get_task`: query by id, raise if absent. -/
def get_task (store : Store) (i : Nat) : PyRes Task :=
  match findTaskById store.tasks i with
  | none => .exn ("Task with id " ++ toString i ++ " does not exist")
  | some t => .ok t

/-- tasks.py `TaskManager.update_task`: `session.merge(task); session.commit()`,
rollback and wrapped raise on failure. -/
def update_task (store : Store) (t : Task) (fault : Option String) : OpOut :=
  match fault with
  | some c => ⟨.exn ("Failed to update task: " ++ c), store, false⟩
  | none => ⟨.ok (), { store with tasks := upsertTask store.tasks t }, false⟩

/-- tasks.py `TaskManager.delete_task`: raise if the id is absent,
otherwise delete and commit with rollback on failure. -/
def delete_task (store : Store) (i : Nat) (fault : Option String) : OpOut :=
  match findTaskById store.tasks i with
  | none => ⟨.exn ("Task with id " ++ toString i ++ " does not exist"), store, false⟩
  | some _ =>
    match fault with
    | some c => ⟨.exn ("Failed to delete task: " ++ c), store, false⟩
    | none => ⟨.ok (), { store with tasks := removeFirstTask store.tasks i }, false⟩

/-- tasks.py `TaskManager.get_all_tasks`. -/
def get_all_tasks (store : Store) : List Task := store.tasks

/-- tasks.py `TaskManager.get_incomplete_tasks`:
`query(Task).filter_by(completed=False).all()`. -/
def get_incomplete_tasks (store : Store) : List Task :=
  store.tasks.filter (fun t => t.completed == false)

/-- tasks.py `TaskManager.mark_task_complete`: query by id, raise if
absent; set the flag and commit, rollback and wrapped raise on failure. -/
def mark_task_complete (store : Store) (i : Nat) (fault : Option String) : OpOut :=
  match findTaskById store.tasks i with
  | none => ⟨.exn ("Task with id " ++ toString i ++ " does not exist"), store, false⟩
  | some _ =>
    match fault with
    | some c => ⟨.exn ("Failed to mark task as complete: " ++ c), store, false⟩
    | none => ⟨.ok (), { store with tasks := setCompletedFirst store.tasks i }, false⟩

/-- `order_by(Task.priority.desc()).first()` over a list: an element of
maximal priority (descending order, unspecified tie-break). -/
def maxByPriority : List Task → Option Task
  | [] => none
  | t :: ts =>
    match maxByPriority ts with
    | none => some t
    | some u => if u.priority > t.priority then some u else some t

/-- tasks.py `TaskManager.get_highest_priority_task`: filter incomplete,
order by priority descending, take the first; raise if none. -/
def get_highest_priority_task (store : Store) : PyRes Task :=
  match maxByPriority (get_incomplete_tasks store) with
  | none => .exn "No incomplete tasks found"
  | some t => .ok t

/-- tasks.py `TaskManager.complete_tasks_for_goal`:
`session.query(Task).filter_by(goal_id=goal_id)` — the `Task` model has
no `goal_id` column, so the query raises before the loop runs; the query
is outside the try block, so the error propagates unwrapped. The first
branch (filter then mark each result complete) is unreachable because
`taskColumns` does not contain `goal_id`. -/
def complete_tasks_for_goal (store : Store) (goalId : Nat) : PyRes Unit × Store :=
  if taskColumns.contains "goal_id" then
    (.ok (), store)
  else
    (.exn "Entity namespace for tasks has no property goal_id", store)

end TaskManager

namespace DatabaseManager

/-- database.py `DatabaseManager.create_task`: `session.add; session.commit`
inside try/except that raises a wrapped exception but performs NO rollback:
on failure the pending write stays in the scoped session. -/
def create_task (store : Store) (t : Task) (fault : Option String) : OpOut :=
  match fault with
  | some c => ⟨.exn ("Failed to create task: " ++ c), store, true⟩
  | none =>
    if taskIdPresent store.tasks t.id then
      ⟨.exn ("Failed to create task: UNIQUE constraint failed: tasks.id"),
        store, true⟩
    else
      ⟨.ok (), { store with tasks := store.tasks ++ [t] }, false⟩

/-- database.py `DatabaseManager.update_task`: merge + commit, wrapped
raise without rollback on failure. -/
def update_task (store : Store) (t : Task) (fault : Option String) : OpOut :=
  match fault with
  | some c => ⟨.exn ("Failed to update task: " ++ c), store, true⟩
  | none => ⟨.ok (), { store with tasks := upsertTask store.tasks t }, false⟩

/-- database.py `DatabaseManager.delete_task`: queries by id and calls
`session.delete(task)` without a None guard — a missing id raises inside
the try (nothing pending yet); a present id with failing commit raises
wrapped without rollback. -/
def delete_task (store : Store) (i : Nat) (fault : Option String) : OpOut :=
  match findTaskById store.tasks i with
  | none => ⟨.exn ("Failed to delete task: Class NoneType is not mapped"), store, false⟩
  | some _ =>
    match fault with
    | some c => ⟨.exn ("Failed to delete task: " ++ c), store, true⟩
    | none => ⟨.ok (), { store with tasks := removeFirstTask store.tasks i }, false⟩

/-- database.py `DatabaseManager.create_plan`: add + commit, wrapped
raise without rollback on failure. -/
def create_plan (store : Store) (p : Plan) (fault : Option String) : OpOut :=
  match fault with
  | some c => ⟨.exn ("Failed to create plan: " ++ c), store, true⟩
  | none =>
    if planIdPresent store.plans p.id then
      ⟨.exn ("Failed to create plan: UNIQUE constraint failed: plans.id"),
        store, true⟩
    else
      ⟨.ok (), { store with plans := store.plans ++ [p] }, false⟩

/-- database.py `DatabaseManager.update_plan`: merge + commit, wrapped
raise without rollback on failure. -/
def update_plan (store : Store) (p : Plan) (fault : Option String) : OpOut :=
  match fault with
  | some c => ⟨.exn ("Failed to update plan: " ++ c), store, true⟩
  | none => ⟨.ok (), { store with plans := upsertPlan store.plans p }, false⟩

/-- database.py `DatabaseManager.delete_plan`: guarded by `if plan:` —
a missing id is a silent no-op; a present id with failing commit raises
wrapped without rollback. -/
def delete_plan (store : Store) (i : Nat) (fault : Option String) : OpOut :=
  match findPlanById store.plans i with
  | none => ⟨.ok (), store, false⟩
  | some _ =>
    match fault with
    | some c => ⟨.exn ("Failed to delete plan: " ++ c), store, true⟩
    | none => ⟨.ok (), { store with plans := removeFirstPlan store.plans i }, false⟩

/-- database.py `DatabaseManager.mark_task_complete`: guarded by
`if task:` — a missing id is a silent no-op (no exception, no change);
a present id sets the flag and commits, raising wrapped without
rollback on failure. -/
def mark_task_complete (store : Store) (i : Nat) (fault : Option String) : OpOut :=
  match findTaskById store.tasks i with
  | none => ⟨.ok (), store, false⟩
  | some _ =>
    match fault with
    | some c => ⟨.exn ("Failed to mark task complete: " ++ c), store, true⟩
    | none => ⟨.ok (), { store with tasks := setCompletedFirst store.tasks i }, false⟩

/-- database.py `DatabaseManager.mark_goal_complete`: guarded by
`if plan:` — a missing goal is a silent no-op; a present goal sets the
flag on the first matching plan. The method body has no return
statement, so the Python call always returns None; `.ok ()` models that
None return. -/
def mark_goal_complete (store : Store) (g : String) (fault : Option String) : OpOut :=
  match findPlanByGoal store.plans g with
  | none => ⟨.ok (), store, false⟩
  | some _ =>
    match fault with
    | some c => ⟨.exn ("Failed to mark goal complete: " ++ c), store, true⟩
    | none => ⟨.ok (), { store with plans := setPlanCompletedFirstByGoal store.plans g }, false⟩

/-- database.py `DatabaseManager.update_goals`: iterates over all plans
and queries `filter_by(plan_id=plan.id)` — the `Task` model has no
`plan_id` column, so with at least one plan present the first iteration
raises, caught and re-raised wrapped; with no plans the loop body never
runs and the commit succeeds. The first inner branch is unreachable
because `taskColumns` does not contain `plan_id`. -/
def update_goals (store : Store) : PyRes Unit × Store :=
  match store.plans with
  | [] => (.ok (), store)
  | _ :: _ =>
    if taskColumns.contains "plan_id" then
      (.ok (), store)
    else
      (.exn "Failed to update goals: Entity namespace for tasks has no property plan_id",
        store)

end DatabaseManager

/-- A Python dict appearing as one item of the `plan` argument of
`Planner.generate_tasks` (first definition); only the key set matters
to the validation logic. -/
structure TaskSpec where
  keys : List String
deriving DecidableEq, Repr

/-- The key set required of each plan item by `Planner.generate_tasks`
(first definition, planner.py line 170) and by `solve_task` /
`mark_task_complete` (first definition). -/
def requiredKeys : List String := ["id", "description", "priority", "completed"]

/-- One checklist line of the prompt (planner.py lines 104-105):
`"- [x] "` or `"- [ ] "` followed by the description. -/
def renderTaskLine (t : Task) : String :=
  "- " ++ (if t.completed then "[x]" else "[ ]") ++ " " ++ t.description ++ "\n"

/-- `enumerate(goals, start=n)` rendered as a numbered list
(planner.py lines 96-97). -/
def renderGoalLines : Nat → List String → String
  | _, [] => ""
  | n, g :: gs => toString n ++ ". " ++ g ++ "\n" ++ renderGoalLines (n + 1) gs

/-- Concatenation of rendered lines (the `+=` accumulation loop). -/
def concatLines : List String → String
  | [] => ""
  | s :: ss => s ++ concatLines ss

namespace Planner

/-- planner.py `Planner.construct_plan_prompt` (lines 79-111): header,
numbered goals section, checklist of ALL tasks re-read from storage via
`self.task_manager.get_all_tasks()`, and the revised-plan header. -/
def construct_plan_prompt (goals : List String) (store : Store) : String :=
  "# Project Plan\n\n" ++ "## Goals:\n" ++ renderGoalLines 1 goals ++ "\n"
    ++ "## Tasks:\n"
    ++ concatLines ((TaskManager.get_all_tasks store).map renderTaskLine)
    ++ "\n" ++ "## Revised Plan:\n\n"

/-- planner.py `Planner.generate_tasks`, FIRST definition (lines
159-173): an empty plan returns `[]` before anything else; a plan item
missing one of the required keys raises a ValueError naming the
required key list; a fully valid non-empty plan then delegates to
`self.task_manager.generate_tasks(plan)`, a method `TaskManager` does
not define, so the delegation raises AttributeError. -/
def generate_tasks_v1 (plan : List TaskSpec) : PyRes (List Task) :=
  if plan.isEmpty then .ok []
  else if plan.all (fun s => requiredKeys.all (fun k => s.keys.contains k)) then
    .exn "TaskManager object has no attribute generate_tasks"
  else
    .exn "A task in the plan is missing one or more required keys: [id, description, priority, completed]"

/-- planner.py `Planner.__init__` (lines 20-32) assigns `engine`,
`Session`, `task_manager` and `database_manager`; it never assigns
`self.planner`, so attribute lookup of `self.planner` always raises
AttributeError. -/
def hasPlannerAttr : Bool := false

/-- planner.py `Planner.generate_plan`, SECOND (effective) definition
(lines 262-269): delegates to `self.planner.generate_plan()`; the
attribute lookup raises AttributeError, caught and re-raised wrapped.
The first branch is unreachable because `self.planner` is never
assigned. -/
def generate_plan (store : Store) : PyRes Unit × Store :=
  if hasPlannerAttr then (.ok (), store)
  else (.exn "Failed to generate plan: Planner object has no attribute planner", store)

/-- planner.py `Planner.generate_tasks`, SECOND (effective) definition
(lines 271-278): `def generate_tasks(self)` takes no plan argument, so
a call passing one raises TypeError at the call site; a no-argument
call delegates to `self.planner.generate_tasks()`, whose attribute
lookup raises AttributeError, caught and re-raised wrapped. -/
def generate_tasks (store : Store) (arg : Option (List TaskSpec)) : PyRes Unit × Store :=
  match arg with
  | some _ =>
    (.exn "TypeError: generate_tasks() takes 1 positional argument but 2 were given",
      store)
  | none =>
    if hasPlannerAttr then (.ok (), store)
    else (.exn "Failed to generate tasks: Planner object has no attribute planner", store)

/-- planner.py `Planner.mark_task_complete`, SECOND (effective)
definition (lines 292-302): delegates to
`self.task_manager.mark_task_complete(task_id)` — an attribute that
`__init__` DOES assign — wrapping any raised exception. -/
def mark_task_complete (store : Store) (i : Nat) : PyRes Unit × Store :=
  match TaskManager.mark_task_complete store i none with
  | ⟨.ok _, db, _⟩ => (.ok (), db)
  | ⟨.exn e, db, _⟩ => (.exn ("Failed to mark task as complete: " ++ e), db)

/-- planner.py `Planner.mark_goal_complete` (lines 229-241): for a
string goal, calls `DatabaseManager.mark_goal_complete` and then raises
`"Failed to mark goal ... as complete"` whenever the returned value is
None — which it always is, since that method has no return statement. -/
def mark_goal_complete (store : Store) (g : String) : PyRes Unit × Store :=
  let r := DatabaseManager.mark_goal_complete store g none
  match r.res with
  | .ok _ => (.exn ("Failed to mark goal " ++ g ++ " as complete"), r.db)
  | .exn e => (.exn e, r.db)

end Planner

/-- __init__.py `AutoGPTPlannerPlugin.post_prompt` (lines 62-122): the
whole internal step sequence runs inside one try block; any exception
is caught, its message printed (modelled as the returned log), and the
prompt argument is returned unchanged in every case. -/
def postPrompt {α : Type} (body : PyRes Unit) (prompt : α) : List String × α :=
  match body with
  | .ok _ => ([], prompt)
  | .exn e => ([e], prompt)

/-- Five incomplete tasks with priorities [3, 1, 4, 1, 5], the scenario
named in the spec's testable properties. -/
def priorityScenario : Store :=
  ⟨[⟨1, "t1", 3, false⟩, ⟨2, "t2", 1, false⟩, ⟨3, "t3", 4, false⟩,
    ⟨4, "t4", 1, false⟩, ⟨5, "t5", 5, false⟩], []⟩

theorem maxByPriority_mem (ts : List Task) : ∀ t : Task,
    TaskManager.maxByPriority ts = some t → t ∈ ts := by
  induction ts with
  | nil => intro t h; simp [TaskManager.maxByPriority] at h
  | cons a as ih =>
    intro t h
    simp only [TaskManager.maxByPriority] at h
    split at h
    · injection h with h
      subst h
      exact List.mem_cons_self a as
    · rename_i u hm
      split at h
      · injection h with h
        subst h
        exact List.mem_cons_of_mem a (ih u hm)
      · injection h with h
        subst h
        exact List.mem_cons_self a as

theorem maxByPriority_ge (ts : List Task) : ∀ t : Task,
    TaskManager.maxByPriority ts = some t →
    ∀ u ∈ ts, u.priority ≤ t.priority := by
  induction ts with
  | nil => intro t h; simp [TaskManager.maxByPriority] at h
  | cons a as ih =>
    intro t h u hu
    simp only [TaskManager.maxByPriority] at h
    split at h
    · rename_i hm
      injection h with h
      subst h
      have has : as = [] := by
        cases as with
        | nil => rfl
        | cons b bs =>
          simp only [TaskManager.maxByPriority] at hm
          split at hm
          · cases hm
          · split at hm <;> cases hm
      subst has
      rcases List.mem_cons.mp hu with h1 | h1
      · exact le_of_eq (congrArg Task.priority h1)
      · simp at h1
    · rename_i v hm
      split at h
      · rename_i hc
        injection h with h
        subst h
        rcases List.mem_cons.mp hu with h1 | h1
        · exact le_of_lt (lt_of_le_of_lt (le_of_eq (congrArg Task.priority h1)) hc)
        · exact ih v hm u h1
      · rename_i hc
        injection h with h
        subst h
        rcases List.mem_cons.mp hu with h1 | h1
        · exact le_of_eq (congrArg Task.priority h1)
        · exact le_trans (ih v hm u h1) (le_of_not_lt hc)

theorem maxByPriority_isSome (ts : List Task) (h : ts ≠ []) :
    ∃ t, TaskManager.maxByPriority ts = some t := by
  cases ts with
  | nil => exact absurd rfl h
  | cons a as =>
    simp only [TaskManager.maxByPriority]
    split
    · exact ⟨a, rfl⟩
    · rename_i u hm
      split
      · exact ⟨u, rfl⟩
      · exact ⟨a, rfl⟩

theorem find?_append_right {α : Type} (p : α → Bool) (l1 l2 : List α)
    (h : ∀ a ∈ l1, p a = false) :
    List.find? p (l1 ++ l2) = List.find? p l2 := by
  induction l1 with
  | nil => rfl
  | cons a as ih =>
    have ha := h a (List.mem_cons_self a as)
    rw [List.cons_append, List.find?_cons, ha]
    exact ih fun b hb => h b (List.mem_cons_of_mem a hb)

theorem findTaskById_append_self (ts : List Task) (t : Task)
    (h : taskIdPresent ts t.id = false) :
    findTaskById (ts ++ [t]) t.id = some t := by
  have hall : ∀ u ∈ ts, (u.id == t.id) = false := by
    intro u hu
    by_contra hne
    have : (u.id == t.id) = true := by
      cases hb : (u.id == t.id) with
      | false => exact absurd hb hne
      | true => rfl
    have : taskIdPresent ts t.id = true :=
      List.any_eq_true.mpr ⟨u, hu, this⟩
    rw [this] at h
    cases h
  rw [findTaskById, find?_append_right _ _ _ hall]
  simp [List.find?_cons]

theorem findTaskById_append_mid (pre post : List Task) (t : Task)
    (h : ∀ u ∈ pre, (u.id == t.id) = false) :
    findTaskById (pre ++ t :: post) t.id = some t := by
  rw [findTaskById, find?_append_right _ _ _ h]
  simp [List.find?_cons]

theorem setCompletedFirst_append (pre post : List Task) (t : Task)
    (h : ∀ u ∈ pre, (u.id == t.id) = false) :
    setCompletedFirst (pre ++ t :: post) t.id
      = pre ++ { t with completed := true } :: post := by
  induction pre with
  | nil => simp [setCompletedFirst]
  | cons a as ih =>
    have ha := h a (List.mem_cons_self a as)
    rw [List.cons_append, setCompletedFirst, ha]
    simp only [Bool.false_eq_true, if_false, List.cons_append, List.cons.injEq, true_and]
    exact ih fun b hb => h b (List.mem_cons_of_mem a hb)

theorem concatLines_append (l1 l2 : List String) :
    concatLines (l1 ++ l2) = concatLines l1 ++ concatLines l2 := by
  induction l1 with
  | nil => simp [concatLines]
  | cons a as ih => simp [concatLines, ih, String.append_assoc]

theorem renderTaskLine_incomplete (t : Task) (h : t.completed = false) :
    renderTaskLine t = "- [ ] " ++ t.description ++ "\n" := by
  simp only [renderTaskLine, h, Bool.false_eq_true, if_false]
  rfl

theorem renderTaskLine_complete (t : Task) (h : t.completed = true) :
    renderTaskLine t = "- [x] " ++ t.description ++ "\n" := by
  simp only [renderTaskLine, h, if_true]
  rfl

/-- C1: the claim as stated is FALSE: `DatabaseManager.create_task` on a
failing commit raises a wrapped exception and leaves the committed store
unchanged, but performs NO rollback — the partial write stays pending in
the session (`sessionDirty = true`), contradicting "the partial write is
rolled back". -/
theorem C1_counterexample :
    DatabaseManager.create_task ⟨[], []⟩ ⟨1, "a", 1, false⟩ (some "disk error")
      = ⟨.exn "Failed to create task: disk error", ⟨[], []⟩, true⟩ := rfl

/-- C1 (amended): on a failing commit every mutating operation leaves
the committed store unchanged and raises a wrapped exception carrying
the original cause; the three TaskManager operations additionally roll
the session back (`sessionDirty = false`), while the six
DatabaseManager operations perform no rollback and leave the failed
write pending in the session (`sessionDirty = true`). -/
theorem C1_all_or_nothing (store : Store) (t : Task) (p : Plan) (i j : Nat)
    (c : String) (t0 : Task) (p0 : Plan)
    (ht : findTaskById store.tasks i = some t0)
    (hp : findPlanById store.plans j = some p0) :
    TaskManager.create_task store t (some c)
        = ⟨.exn ("Failed to create task: " ++ c), store, false⟩
    ∧ TaskManager.update_task store t (some c)
        = ⟨.exn ("Failed to update task: " ++ c), store, false⟩
    ∧ TaskManager.delete_task store i (some c)
        = ⟨.exn ("Failed to delete task: " ++ c), store, false⟩
    ∧ DatabaseManager.create_task store t (some c)
        = ⟨.exn ("Failed to create task: " ++ c), store, true⟩
    ∧ DatabaseManager.update_task store t (some c)
        = ⟨.exn ("Failed to update task: " ++ c), store, true⟩
    ∧ DatabaseManager.delete_task store i (some c)
        = ⟨.exn ("Failed to delete task: " ++ c), store, true⟩
    ∧ DatabaseManager.create_plan store p (some c)
        = ⟨.exn ("Failed to create plan: " ++ c), store, true⟩
    ∧ DatabaseManager.update_plan store p (some c)
        = ⟨.exn ("Failed to update plan: " ++ c), store, true⟩
    ∧ DatabaseManager.delete_plan store j (some c)
        = ⟨.exn ("Failed to delete plan: " ++ c), store, true⟩ := by
  refine ⟨rfl, rfl, ?_, rfl, rfl, ?_, rfl, rfl, ?_⟩
  · simp [TaskManager.delete_task, ht]
  · simp [DatabaseManager.delete_task, ht]
  · simp [DatabaseManager.delete_plan, hp]

/-- C1 witness: the amended theorem applied at a concrete store, task,
plan and fault. -/
theorem C1_all_or_nothing_witness :
    findTaskById [⟨1, "a", 1, false⟩] 1 = some ⟨1, "a", 1, false⟩
    ∧ findPlanById [⟨1, "g", false⟩] 1 = some ⟨1, "g", false⟩
    ∧ DatabaseManager.create_task ⟨[⟨1, "a", 1, false⟩], [⟨1, "g", false⟩]⟩
        ⟨2, "b", 2, false⟩ (some "boom")
      = ⟨.exn "Failed to create task: boom",
          ⟨[⟨1, "a", 1, false⟩], [⟨1, "g", false⟩]⟩, true⟩ :=
  ⟨rfl, rfl,
    (C1_all_or_nothing ⟨[⟨1, "a", 1, false⟩], [⟨1, "g", false⟩]⟩
      ⟨2, "b", 2, false⟩ ⟨2, "h", false⟩ 1 1 "boom"
      ⟨1, "a", 1, false⟩ ⟨1, "g", false⟩ rfl rfl).2.2.2.1⟩

/-- C2: the claim as stated is FALSE: `DatabaseManager.mark_task_complete`
on an id absent from the store is a silent no-op (its `if task:` guard
skips both mutation and error), not a raised NotFoundError. -/
theorem C2_counterexample :
    DatabaseManager.mark_task_complete ⟨[], []⟩ 1 none
      = ⟨.ok (), ⟨[], []⟩, false⟩ := rfl

/-- C2 (amended): for an id absent from the store,
`TaskManager.mark_task_complete` raises "Task with id ... does not
exist" and leaves the store unchanged, while
`DatabaseManager.mark_task_complete` silently succeeds with the store
unchanged. -/
theorem C2_mark_missing (store : Store) (i : Nat)
    (h : findTaskById store.tasks i = none) :
    TaskManager.mark_task_complete store i none
        = ⟨.exn ("Task with id " ++ toString i ++ " does not exist"), store, false⟩
    ∧ DatabaseManager.mark_task_complete store i none
        = ⟨.ok (), store, false⟩ := by
  constructor
  · simp [TaskManager.mark_task_complete, h]
  · simp [DatabaseManager.mark_task_complete, h]

/-- C2 witness: the amended theorem applied at the empty store and id 1. -/
theorem C2_mark_missing_witness :
    findTaskById ([] : List Task) 1 = none
    ∧ TaskManager.mark_task_complete ⟨[], []⟩ 1 none
        = ⟨.exn "Task with id 1 does not exist", ⟨[], []⟩, false⟩ :=
  ⟨rfl, (C2_mark_missing ⟨[], []⟩ 1 rfl).1⟩

/-- C3: whenever an incomplete task exists,
`TaskManager.get_highest_priority_task` returns an incomplete stored
task of maximal priority among the incomplete ones; over the concrete
priorities [3,1,4,1,5] it returns the priority-5 task and, after that
task is marked complete, the priority-4 task. -/
theorem C3_highest_priority (store : Store)
    (h : ∃ t ∈ store.tasks, t.completed = false) :
    (∃ t : Task, TaskManager.get_highest_priority_task store = .ok t
        ∧ t ∈ store.tasks ∧ t.completed = false
        ∧ ∀ u ∈ store.tasks, u.completed = false → u.priority ≤ t.priority)
    ∧ TaskManager.get_highest_priority_task priorityScenario
        = .ok ⟨5, "t5", 5, false⟩
    ∧ TaskManager.get_highest_priority_task
        (TaskManager.mark_task_complete priorityScenario 5 none).db
        = .ok ⟨3, "t3", 4, false⟩ := by
  refine ⟨?_, rfl, rfl⟩
  obtain ⟨t0, ht0, hc0⟩ := h
  have hmemf : t0 ∈ TaskManager.get_incomplete_tasks store := by
    simp [TaskManager.get_incomplete_tasks, List.mem_filter, ht0, hc0]
  obtain ⟨t, hmax⟩ :=
    maxByPriority_isSome _ (List.ne_nil_of_mem hmemf)
  have htmem := maxByPriority_mem _ t hmax
  have htf := List.mem_filter.mp htmem
  refine ⟨t, ?_, htf.1, by simpa using htf.2, ?_⟩
  · simp [TaskManager.get_highest_priority_task, hmax]
  · intro u hu huc
    exact maxByPriority_ge _ t hmax u
      (by simp [TaskManager.get_incomplete_tasks, List.mem_filter, hu, huc])

/-- C3 witness: the theorem applied at the [3,1,4,1,5] scenario store. -/
theorem C3_highest_priority_witness :
    (∃ t ∈ priorityScenario.tasks, t.completed = false)
    ∧ TaskManager.get_highest_priority_task priorityScenario
        = .ok ⟨5, "t5", 5, false⟩ :=
  ⟨⟨⟨1, "t1", 3, false⟩, by simp [priorityScenario], rfl⟩,
    (C3_highest_priority priorityScenario
      ⟨⟨1, "t1", 3, false⟩, by simp [priorityScenario], rfl⟩).2.1⟩

/-- C4: the code diverges from the claim. The effective (second)
definition of `Planner.generate_tasks` takes no plan argument, so a
call passing the empty list raises TypeError instead of returning an
empty sequence, and a no-argument call raises through the unassigned
`self.planner`; the shadowed first definition DOES return `[]` on empty
input and raise a ValueError naming the required keys on an item with
missing fields, matching the claim's intent. -/
theorem C4_generate_tasks_divergence :
    Planner.generate_tasks ⟨[], []⟩ (some [])
      = (.exn "TypeError: generate_tasks() takes 1 positional argument but 2 were given",
          ⟨[], []⟩)
    ∧ Planner.generate_tasks ⟨[], []⟩ none
      = (.exn "Failed to generate tasks: Planner object has no attribute planner",
          ⟨[], []⟩)
    ∧ Planner.generate_tasks_v1 [] = .ok []
    ∧ Planner.generate_tasks_v1 [⟨["description"]⟩]
      = .exn "A task in the plan is missing one or more required keys: [id, description, priority, completed]" :=
  ⟨rfl, rfl, rfl, rfl⟩

/-- C5: the claim as stated is FALSE: with a plan whose goal matches
present in the store, `Planner.mark_goal_complete` sets the completed
flag but still raises "Failed to mark goal ... as complete" (because
`DatabaseManager.mark_goal_complete` returns None), so the call never
succeeds. -/
theorem C5_counterexample :
    Planner.mark_goal_complete ⟨[], [⟨1, "g", false⟩]⟩ "g"
      = (.exn "Failed to mark goal g as complete", ⟨[], [⟨1, "g", true⟩]⟩) := rfl

/-- C5 (amended): for every store and string goal key,
`Planner.mark_goal_complete` raises "Failed to mark goal ... as
complete": when a plan with matching goal text exists, its completed
flag is nevertheless set to true before the error; when none exists the
store is unchanged (a silent no-op at the DatabaseManager level, so no
distinct NotFoundError is raised either). -/
theorem C5_mark_goal_always_fails (store : Store) (g : String) (p0 : Plan) :
    (findPlanByGoal store.plans g = some p0 →
      Planner.mark_goal_complete store g
        = (.exn ("Failed to mark goal " ++ g ++ " as complete"),
            { store with plans := setPlanCompletedFirstByGoal store.plans g }))
    ∧ (findPlanByGoal store.plans g = none →
      Planner.mark_goal_complete store g
        = (.exn ("Failed to mark goal " ++ g ++ " as complete"), store)) := by
  constructor
  · intro h
    simp [Planner.mark_goal_complete, DatabaseManager.mark_goal_complete, h]
  · intro h
    simp [Planner.mark_goal_complete, DatabaseManager.mark_goal_complete, h]

/-- C5 witness: the amended theorem applied with a matching plan
present. -/
theorem C5_mark_goal_always_fails_witness :
    findPlanByGoal [⟨1, "ship v1", false⟩] "ship v1" = some ⟨1, "ship v1", false⟩
    ∧ Planner.mark_goal_complete ⟨[], [⟨1, "ship v1", false⟩]⟩ "ship v1"
        = (.exn "Failed to mark goal ship v1 as complete",
            ⟨[], [⟨1, "ship v1", true⟩]⟩) :=
  ⟨rfl,
    (C5_mark_goal_always_fails ⟨[], [⟨1, "ship v1", false⟩]⟩ "ship v1"
      ⟨1, "ship v1", false⟩).1 rfl⟩

/-- C6: `Planner.construct_plan_prompt` is a function of the goal list
and the task table re-read from storage on each call: it renders the
header, the numbered goals, one checklist line per stored task with
`[x]` for completed and `[ ]` for incomplete followed by the
description, and the revised-plan header; after a task is marked
complete between two calls, the second prompt renders that task's
line with `[x]` where the first rendered `[ ]`. -/
theorem C6_prompt_recomputed (goals : List String) (plans : List Plan)
    (pre post : List Task) (t : Task)
    (hpre : ∀ u ∈ pre, (u.id == t.id) = false)
    (hinc : t.completed = false) :
    Planner.construct_plan_prompt goals ⟨pre ++ t :: post, plans⟩
      = "# Project Plan\n\n" ++ "## Goals:\n" ++ renderGoalLines 1 goals ++ "\n"
        ++ "## Tasks:\n"
        ++ (concatLines (pre.map renderTaskLine)
            ++ ("- [ ] " ++ t.description ++ "\n"
                ++ concatLines (post.map renderTaskLine)))
        ++ "\n" ++ "## Revised Plan:\n\n"
    ∧ (TaskManager.mark_task_complete ⟨pre ++ t :: post, plans⟩ t.id none).db
      = ⟨pre ++ { t with completed := true } :: post, plans⟩
    ∧ Planner.construct_plan_prompt goals
        (TaskManager.mark_task_complete ⟨pre ++ t :: post, plans⟩ t.id none).db
      = "# Project Plan\n\n" ++ "## Goals:\n" ++ renderGoalLines 1 goals ++ "\n"
        ++ "## Tasks:\n"
        ++ (concatLines (pre.map renderTaskLine)
            ++ ("- [x] " ++ t.description ++ "\n"
                ++ concatLines (post.map renderTaskLine)))
        ++ "\n" ++ "## Revised Plan:\n\n" := by
  have hdb : (TaskManager.mark_task_complete ⟨pre ++ t :: post, plans⟩ t.id none).db
      = ⟨pre ++ { t with completed := true } :: post, plans⟩ := by
    simp [TaskManager.mark_task_complete, findTaskById_append_mid pre post t hpre,
      setCompletedFirst_append pre post t hpre]
  refine ⟨?_, hdb, ?_⟩
  · simp [Planner.construct_plan_prompt, TaskManager.get_all_tasks,
      List.map_append, concatLines_append, concatLines,
      renderTaskLine_incomplete t hinc, String.append_assoc]
  · rw [hdb]
    simp [Planner.construct_plan_prompt, TaskManager.get_all_tasks,
      List.map_append, concatLines_append, concatLines,
      renderTaskLine_complete { t with completed := true } rfl,
      String.append_assoc]

/-- C6 witness: the theorem applied at a concrete goal list and store;
the two prompts evaluate to concrete strings whose checklists show the
flag change. -/
theorem C6_prompt_recomputed_witness :
    Planner.construct_plan_prompt ["goal one"] ⟨[⟨1, "write code", 2, false⟩], []⟩
      = "# Project Plan\n\n## Goals:\n1. goal one\n\n## Tasks:\n- [ ] write code\n\n## Revised Plan:\n\n"
    ∧ Planner.construct_plan_prompt ["goal one"]
        (TaskManager.mark_task_complete ⟨[⟨1, "write code", 2, false⟩], []⟩ 1 none).db
      = "# Project Plan\n\n## Goals:\n1. goal one\n\n## Tasks:\n- [x] write code\n\n## Revised Plan:\n\n" := by
  have h := C6_prompt_recomputed ["goal one"] [] [] []
    ⟨1, "write code", 2, false⟩ (by simp) rfl
  exact ⟨h.1.trans rfl, h.2.2.trans rfl⟩

/-- C7: `post_prompt` returns its prompt argument unchanged for every
outcome of the internal step sequence; when any internal step raises,
the exception is logged (printed) and not re-raised. -/
theorem C7_post_prompt_swallows {α : Type} (prompt : α) (body : PyRes Unit)
    (e : String) :
    (postPrompt body prompt).2 = prompt
    ∧ postPrompt (PyRes.exn e) prompt = ([e], prompt)
    ∧ postPrompt (PyRes.ok ()) prompt = ([], prompt) := by
  refine ⟨?_, rfl, rfl⟩
  cases body <;> rfl

/-- C8: a task created by `TaskManager.create_task` and then fetched by
its id with `TaskManager.get_task` comes back equal field-for-field to
the created record. -/
theorem C8_create_get_roundtrip (store : Store) (t : Task)
    (h : (TaskManager.create_task store t none).res = .ok ()) :
    TaskManager.get_task (TaskManager.create_task store t none).db t.id
      = .ok t := by
  cases hp : taskIdPresent store.tasks t.id with
  | true => simp [TaskManager.create_task, hp] at h
  | false =>
    simp only [TaskManager.create_task, hp, Bool.false_eq_true, if_false]
    simp [TaskManager.get_task, findTaskById_append_self store.tasks t hp]

/-- C8 witness: the round-trip theorem applied at the empty store and a
concrete task. -/
theorem C8_create_get_roundtrip_witness :
    (TaskManager.create_task ⟨[], []⟩ ⟨1, "a", 2, false⟩ none).res = .ok ()
    ∧ TaskManager.get_task
        (TaskManager.create_task ⟨[], []⟩ ⟨1, "a", 2, false⟩ none).db 1
      = .ok ⟨1, "a", 2, false⟩ :=
  ⟨rfl, C8_create_get_roundtrip ⟨[], []⟩ ⟨1, "a", 2, false⟩ rfl⟩

/-- C9: the claim as stated is FALSE for `mark_task_complete`: the
effective (second) definition delegates to `self.task_manager`, an
attribute `__init__` does assign, so on a store containing the id the
call succeeds and mutates storage instead of raising. -/
theorem C9_counterexample :
    Planner.mark_task_complete ⟨[⟨1, "a", 2, false⟩], []⟩ 1
      = (.ok (), ⟨[⟨1, "a", 2, true⟩], []⟩) := rfl

/-- C9 (amended): the later duplicate definitions are the effective
ones; `Planner.generate_plan` and `Planner.generate_tasks` delegate to
the never-assigned `self.planner` and raise for every input with the
store untouched, but `Planner.mark_task_complete` delegates to
`self.task_manager` and behaves as
`TaskManager.mark_task_complete` (same resulting store; task-manager
exceptions re-raised wrapped). -/
theorem C9_effective_methods (store : Store) (arg : Option (List TaskSpec))
    (i : Nat) (e : String)
    (h : (TaskManager.mark_task_complete store i none).res = .exn e) :
    Planner.generate_plan store
      = (.exn "Failed to generate plan: Planner object has no attribute planner", store)
    ∧ (∃ msg, Planner.generate_tasks store arg = (.exn msg, store))
    ∧ (Planner.mark_task_complete store i).2
        = (TaskManager.mark_task_complete store i none).db
    ∧ (Planner.mark_task_complete store i).1
        = .exn ("Failed to mark task as complete: " ++ e) := by
  refine ⟨rfl, ?_, ?_, ?_⟩
  · cases arg with
    | none => exact ⟨_, rfl⟩
    | some l => exact ⟨_, rfl⟩
  · cases hr : TaskManager.mark_task_complete store i none with
    | mk res db dirty => cases res <;> simp [Planner.mark_task_complete, hr]
  · cases hr : TaskManager.mark_task_complete store i none with
    | mk res db dirty =>
      rw [hr] at h
      cases res with
      | ok a => cases h
      | exn e2 =>
        injection h with h2
        subst h2
        simp [Planner.mark_task_complete, hr]

/-- C9 witness: the amended theorem applied at the empty store, where
the delegated task-manager call fails on the missing id and
`Planner.mark_task_complete` re-raises it wrapped. -/
theorem C9_effective_methods_witness :
    (TaskManager.mark_task_complete ⟨[], []⟩ 1 none).res
        = .exn "Task with id 1 does not exist"
    ∧ (Planner.mark_task_complete ⟨[], []⟩ 1).1
        = .exn "Failed to mark task as complete: Task with id 1 does not exist" :=
  ⟨rfl,
    (C9_effective_methods ⟨[], []⟩ none 1 "Task with id 1 does not exist"
      rfl).2.2.2⟩

/-- C10: the `Task` model's columns are exactly id, description,
priority, completed; `TaskManager.complete_tasks_for_goal` filters on
the nonexistent `goal_id` column and raises for every store and goal
id, and `DatabaseManager.update_goals` filters on the nonexistent
`plan_id` column and raises on every store containing at least one
plan, so no goal-scoped bulk completion can succeed. -/
theorem C10_no_goal_association (store store2 : Store) (gid : Nat)
    (h : store2.plans ≠ []) :
    taskColumns = ["id", "description", "priority", "completed"]
    ∧ TaskManager.complete_tasks_for_goal store gid
        = (.exn "Entity namespace for tasks has no property goal_id", store)
    ∧ DatabaseManager.update_goals store2
        = (.exn "Failed to update goals: Entity namespace for tasks has no property plan_id",
            store2) := by
  refine ⟨rfl, rfl, ?_⟩
  obtain ⟨ts, ps⟩ := store2
  cases ps with
  | nil => exact absurd rfl h
  | cons p ps => rfl

/-- C10 witness: the theorem applied at concrete stores, one holding a
plan. -/
theorem C10_no_goal_association_witness :
    (Store.mk [] [⟨1, "g", false⟩]).plans ≠ []
    ∧ DatabaseManager.update_goals ⟨[], [⟨1, "g", false⟩]⟩
        = (.exn "Failed to update goals: Entity namespace for tasks has no property plan_id",
            ⟨[], [⟨1, "g", false⟩]⟩) :=
  ⟨by simp,
    (C10_no_goal_association ⟨[], []⟩ ⟨[], [⟨1, "g", false⟩]⟩ 1 (by simp)).2.2⟩

end Plugin
